import Mathlib

/-
Shallow embedding of `src/rules/ds-IsInstanceProtectedBy/dsIsInstanceProtectedBy.py`
(the `aws_config_rule_handler` Lambda function) together with theorems about it.

Modelling conventions:
 * Python dict keys that may be absent become `Option` fields; `none` means the
   key is not present in the dict.
 * Python string methods `.lower()`, `.strip()` and the substring operator
   `in` are embedded as executable functions on `String.data` char lists
   (`pyLower`, `pyStrip`, `pyIn`).
 * Exceptions become `Except PyError`; an uncaught Python exception is
   `Except.error`.
 * The external collaborators (Deep Security `Manager`, `Credentials`, the
   AWS Config client) are out of scope per the spec; their observable
   behaviour during one invocation is a `World` record: whether `Manager(...)`
   raises, whether `sign_in()` raises, the host inventory returned by
   `computers.get()`, and whether `put_evaluations` raises (plus its raw
   response).  The calls the handler actually makes are recorded in a
   `CallTrace`.
 * The JSON deserialization of string-typed `invokingEvent` / `ruleParameters`
   is the identity here: events arrive already structured.
 * `OrderingTimestamp` (wall-clock time) is not modelled; it is not observable
   by any claim.
-/

/-- Python character lowercasing for the ASCII range, as used by `str.lower`
on the strings occurring in this program. -/
def charLower (c : Char) : Char :=
  if 65 ≤ c.toNat && c.toNat ≤ 90 then Char.ofNat (c.toNat + 32) else c

/-- Embedding of Python `s.lower()`. -/
def pyLower (s : String) : String := String.mk (s.data.map charLower)

/-- Boolean prefix test on char lists. -/
def isPrefixOfB : List Char → List Char → Bool
  | [], _ => true
  | _ :: _, [] => false
  | a :: as, b :: bs => a == b && isPrefixOfB as bs

/-- Boolean contiguous-sublist test on char lists. -/
def isInfixOfB (n : List Char) : List Char → Bool
  | [] => isPrefixOfB n []
  | b :: bs => isPrefixOfB n (b :: bs) || isInfixOfB n bs

/-- Embedding of the Python substring operator: `needle in hay`. -/
def pyIn (needle hay : String) : Bool := isInfixOfB needle.data hay.data

/-- Python whitespace characters recognised by `str.strip()`. -/
def isWsB (c : Char) : Bool :=
  c == ' ' || c == '\t' || c == '\n' || c == '\r' || c == '\x0b' || c == '\x0c'

/-- Drop leading whitespace from a char list. -/
def dropWsB : List Char → List Char
  | [] => []
  | c :: cs => if isWsB c then dropWsB cs else c :: cs

/-- Embedding of Python `s.strip()` (both ends). -/
def pyStrip (s : String) : String :=
  String.mk (dropWsB (dropWsB s.data.reverse).reverse)

/-- Python truthiness of an optional string (a missing key or an empty string
is falsy). -/
def pyTruthy : Option String → Bool
  | none => false
  | some s => !(s == "")

/-- Uncaught Python exceptions that the handler can raise. -/
inductive PyError where
  | keyError (key : String)
  | attributeError (attr : String)
  | valueError (msg : String)
deriving Repr, DecidableEq

/-- The `configurationItem` dict inside `invokingEvent`. -/
structure ConfigurationItem where
  resourceType : Option String
  resourceId : Option String
deriving Repr, DecidableEq

/-- The `invokingEvent` dict. -/
structure InvokingEvent where
  configurationItem : Option ConfigurationItem
deriving Repr, DecidableEq

/-- The `ruleParameters` dict.  A `none` field models an absent key. -/
structure RuleParameters where
  dsUsernameKey : Option String
  dsPasswordKey : Option String
  dsTenant : Option String
  dsHostname : Option String
  dsPort : Option Nat
  dsIgnoreSslValidation : Option String
  dsControl : Option String
deriving Repr, DecidableEq

/-- The Lambda invocation event. -/
structure Event where
  invokingEvent : Option InvokingEvent
  ruleParameters : Option RuleParameters
  resultToken : Option String
  eventLeftScope : Option Bool
deriving Repr, DecidableEq

/-- One Deep Security managed-computer record, with the per-control
`overall_<control>_status` attributes read by the handler. -/
structure HostRecord where
  cloud_object_instance_id : Option String
  overall_anti_malware_status : String
  overall_web_reputation_status : String
  overall_firewall_status : String
  overall_intrusion_prevention_status : String
  overall_integrity_monitoring_status : String
  overall_log_inspection_status : String
deriving Repr, DecidableEq

/-- Observable behaviour of the external collaborators during one invocation:
whether `Manager(...)` construction raises, whether `sign_in()` raises, the
inventory yielded by `mgr.computers` after `get()` (as the ordered list of
`(id, record)` pairs the Python dict iteration yields), and the behaviour of
`put_evaluations`. -/
structure World where
  managerConstructOk : Bool
  signInOk : Bool
  computers : List (String × HostRecord)
  putEvaluationsOk : Bool
  putEvaluationsResponse : String
deriving Repr, DecidableEq

/-- The evaluation record submitted to AWS Config (`OrderingTimestamp`
omitted: wall-clock time, unobservable to the claims). The `annot` field
models the optional `Annotation` entry. -/
structure EvaluationRecord where
  complianceResourceType : String
  complianceResourceId : String
  complianceType : String
  annot : Option String
deriving Repr, DecidableEq

/-- Record of the outbound calls the handler performed: credential
resolution, whether the `Manager` object was set (construction succeeded),
whether `sign_in` succeeded, inventory fetch (`computers.get`), `sign_out`,
and the evaluation passed to `put_evaluations` (if that call was made). -/
structure CallTrace where
  credentialsResolved : Bool
  sessionSet : Bool
  signInSucceeded : Bool
  inventoryFetched : Bool
  signOutCalled : Bool
  submission : Option EvaluationRecord
deriving Repr, DecidableEq

/-- Trace with no calls recorded. -/
def CallTrace.init : CallTrace :=
  { credentialsResolved := false, sessionSet := false, signInSucceeded := false
    inventoryFetched := false, signOutCalled := false, submission := none }

/-- The mapping returned by the handler, as optional keys: `result`,
`requirements_not_met`, `annot` (modelling the Python result key
named `Annotation`'s lowercase sibling in the result dict) and `response`.
The raw `put_evaluations` response is modelled by its `World` string. -/
structure HandlerResult where
  result : Option String
  requirements_not_met : Option String
  annot : Option String
  response : Option String
deriving Repr, DecidableEq

/-- The empty Python dict `{}` as a handler result. -/
def HandlerResult.empty : HandlerResult :=
  { result := none, requirements_not_met := none, annot := none, response := none }

/-- Message of the first `requirements_not_met` return (missing credential
keys). -/
def reqMsgCredentials : String :=
  "Function requires that you at least pass dsUsernameKey, dsPasswordKey, and either dsTenant or dsHostname"

/-- Message of the second `requirements_not_met` return (missing or invalid
control). -/
def reqMsgControl : String :=
  "Function requires that you specify the desired Deep Security control to verify. Valid choices are [ anti_malware, web_reputation, firewall, intrusion_prevention, integrity_monitoring, log_inspection ]"

/-- The list of valid `dsControl` values from the source. -/
def validControls : List String :=
  ["anti_malware", "web_reputation", "firewall", "intrusion_prevention",
   "integrity_monitoring", "log_inspection"]

/-- The `control_names` dict from the source. -/
def controlNames (k : String) : Option String :=
  if k = "anti_malware" then some "Anti-Malware"
  else if k = "web_reputation" then some "Web Reputation"
  else if k = "firewall" then some "Firewall"
  else if k = "intrusion_prevention" then some "Intrusion Prevention"
  else if k = "integrity_monitoring" then some "Integrity Monitoring"
  else if k = "log_inspection" then some "Log Inspection"
  else none

/-- Embedding of `getattr(details, 'overall_{}_status'.format(control_key))`:
`none` is an `AttributeError`. -/
def overallStatus (d : HostRecord) (k : String) : Option String :=
  if k = "anti_malware" then some d.overall_anti_malware_status
  else if k = "web_reputation" then some d.overall_web_reputation_status
  else if k = "firewall" then some d.overall_firewall_status
  else if k = "intrusion_prevention" then some d.overall_intrusion_prevention_status
  else if k = "integrity_monitoring" then some d.overall_integrity_monitoring_status
  else if k = "log_inspection" then some d.overall_log_inspection_status
  else none

/-- The per-control substring classification from the scan loop body:
given the (already lowercased) control key and the raw control status string,
decide whether the instance counts as protected. -/
def classify (control_key control_status : String) : Bool :=
  if control_key == "anti_malware" || control_key == "integrity_monitoring" then
    pyIn (pyLower "On, Real Time") (pyLower control_status) ||
      pyIn (pyLower " On, Security Update In Progress, Real Time") (pyLower control_status)
  else if control_key == "intrusion_prevention" then
    pyIn (pyLower "On, Prevent") (pyLower control_status)
  else
    pyIn (pyLower "On") (pyLower control_status)

/-- Host-match test from the scan loop:
`details.cloud_object_instance_id and (details.cloud_object_instance_id.lower().strip() == instance_id.lower().strip())`. -/
def hostMatches (instance_id : String) (d : HostRecord) : Bool :=
  match d.cloud_object_instance_id with
  | none => false
  | some cid => !(cid == "") && (pyStrip (pyLower cid) == pyStrip (pyLower instance_id))

/-- Embedding of `distutils.util.strtobool` (raises `ValueError` on any
string outside the recognised set). -/
def strtobool (s : String) : Except PyError Bool :=
  let v := pyLower s
  if ["y", "yes", "t", "true", "on", "1"].contains v then Except.ok true
  else if ["n", "no", "f", "false", "off", "0"].contains v then Except.ok false
  else Except.error (PyError.valueError ("invalid truth value " ++ s))

/-- The `ds_ignore_ssl_validation` extraction:
`strtobool(rp['dsIgnoreSslValidation'])` if the key is present, else `False`. -/
def parseSsl : Option String → Except PyError Bool
  | none => Except.ok false
  | some s => strtobool s

/-- Mutable state of the scan loop: `is_protected` and `detailed_msg`. -/
structure ScanState where
  is_protected : Bool
  detailed_msg : String
deriving Repr, DecidableEq

/-- One iteration of `for comp_id, details in mgr.computers.items()`.
On a matching host the source reads
`getattr(details, 'overall_{}_status'.format(control_key))` (an invalid key
raises `AttributeError`), then `control_names[control_key]` (an invalid key
raises `KeyError`), overwrites `detailed_msg` and possibly sets
`is_protected`. -/
def scanStep (control_key instance_id : String) (st : ScanState)
    (entry : String × HostRecord) : Except PyError ScanState :=
  if hostMatches instance_id entry.2 then
    match overallStatus entry.2 control_key with
    | none => Except.error (PyError.attributeError ("overall_" ++ control_key ++ "_status"))
    | some control_status =>
      match controlNames control_key with
      | none => Except.error (PyError.keyError control_key)
      | some name =>
        Except.ok
          { is_protected := st.is_protected || classify control_key control_status
            detailed_msg := name ++ " status: " ++ control_status }
  else
    Except.ok st

/-- The whole scan loop over the fetched inventory. -/
def scanHosts (control_key instance_id : String)
    (hosts : List (String × HostRecord)) (st : ScanState) :
    Except PyError ScanState :=
  match hosts with
  | [] => Except.ok st
  | h :: t =>
    match scanStep control_key instance_id st h with
    | Except.error e => Except.error e
    | Except.ok st2 => scanHosts control_key instance_id t st2

/-- Scope filter: the value `instance_id` holds after the
`if 'invokingEvent' in event:` block (the top-level key is already known to
be present at that point). -/
def extractInstanceId (ie : InvokingEvent) : Option String :=
  match ie.configurationItem with
  | none => none
  | some ci =>
    match ci.resourceType with
    | none => none
    | some rt =>
      if pyLower rt == pyLower "AWS::EC2::Instance" then ci.resourceId else none

/-- The `if detailed_msg: result = {'annotation': detailed_msg} else: result = {}`
step. -/
def mkResult0 (detailed_msg : String) : HandlerResult :=
  if detailed_msg == "" then HandlerResult.empty
  else { HandlerResult.empty with annot := some detailed_msg }

/-- Result Reporter: the tail of the handler, from `if detailed_msg:` to the
final `return result`.  Inside the `try` block the source re-reads
`configurationItem` fields; a missing key there raises `KeyError`, which the
`except` clause converts into `result['result'] = 'failure'` with no
submission made. -/
def reportPhase (w : World) (ie : InvokingEvent) (instance_id : Option String)
    (is_protected : Bool) (detailed_msg : String) (tr : CallTrace) :
    HandlerResult × CallTrace :=
  let result0 := mkResult0 detailed_msg
  if pyTruthy instance_id then
    let compliance := if is_protected then "COMPLIANT" else "NON_COMPLIANT"
    match ie.configurationItem with
    | none => ({ result0 with result := some "failure" }, tr)
    | some ci =>
      match ci.resourceType, ci.resourceId with
      | some rt, some rid =>
        let evrec : EvaluationRecord :=
          { complianceResourceType := rt, complianceResourceId := rid
            complianceType := compliance
            annot := if detailed_msg == "" then none else some detailed_msg }
        let tr2 := { tr with submission := some evrec }
        if w.putEvaluationsOk then
          ({ result0 with result := some "success",
                          response := some w.putEvaluationsResponse }, tr2)
        else
          ({ result0 with result := some "failure" }, tr2)
      | _, _ => ({ result0 with result := some "failure" }, tr)
  else
    (result0, tr)

/-- Compliance Evaluator: the `if instance_id:` block.  `mgr` is set exactly
when `Manager(...)` did not raise; a `sign_in()` failure is caught and only
logged, after which `if mgr:` is still true, so the inventory fetch, the scan
and `sign_out()` all run.  Returns `(is_protected, detailed_msg, trace)`. -/
def evalPhase (w : World) (rp : RuleParameters) (instance_id : Option String)
    (tr0 : CallTrace) : Except PyError (Bool × String × CallTrace) :=
  if pyTruthy instance_id then
    match parseSsl rp.dsIgnoreSslValidation with
    | Except.error e => Except.error e
    | Except.ok _ =>
      if w.managerConstructOk then
        match rp.dsControl with
        | none => Except.error (PyError.keyError "dsControl")
        | some c =>
          match scanHosts (pyLower c) (instance_id.getD "") w.computers
              { is_protected := false, detailed_msg := "" } with
          | Except.error e => Except.error e
          | Except.ok st =>
            Except.ok (st.is_protected, st.detailed_msg,
              { tr0 with sessionSet := true, signInSucceeded := w.signInOk
                         inventoryFetched := true, signOutCalled := true })
      else
        Except.ok (false, "", tr0)
  else
    Except.ok (false, "", tr0)

/-- Trace after successful credential resolution only. -/
def trCreds : CallTrace := { CallTrace.init with credentialsResolved := true }

/-- Body of the handler once the four top-level keys are known present:
the two rule-parameter checks, the scope filter, the evaluator and the
reporter.  In the credential check the source combines the three absence
tests with `and`; when that combined test fails but `dsUsernameKey` (or
`dsPasswordKey`) is in fact absent, `Credentials(event['ruleParameters']['dsUsernameKey'], ...)`
raises `KeyError` (the username key is subscripted first). -/
def handlerChecked (w : World) (ie : InvokingEvent) (rp : RuleParameters) :
    Except PyError (HandlerResult × CallTrace) :=
  if rp.dsUsernameKey.isNone && rp.dsPasswordKey.isNone &&
      (rp.dsTenant.isNone || rp.dsHostname.isNone) then
    Except.ok ({ HandlerResult.empty with requirements_not_met := some reqMsgCredentials },
      CallTrace.init)
  else
    match rp.dsUsernameKey with
    | none => Except.error (PyError.keyError "dsUsernameKey")
    | some _ =>
      match rp.dsPasswordKey with
      | none => Except.error (PyError.keyError "dsPasswordKey")
      | some _ =>
        if rp.dsControl.isNone ||
            !(validControls.contains (pyLower (rp.dsControl.getD ""))) then
          Except.ok ({ HandlerResult.empty with requirements_not_met := some reqMsgControl },
            trCreds)
        else
          let instance_id := extractInstanceId ie
          match evalPhase w rp instance_id trCreds with
          | Except.error e => Except.error e
          | Except.ok (is_protected, detailed_msg, tr1) =>
            Except.ok (reportPhase w ie instance_id is_protected detailed_msg tr1)

/-- Embedding of `aws_config_rule_handler(event, context)`.  The first check
returns `{'result': 'error'}` when any of the four top-level keys is absent;
otherwise the body runs with all four present. -/
def aws_config_rule_handler (w : World) (event : Event) :
    Except PyError (HandlerResult × CallTrace) :=
  match event.invokingEvent, event.ruleParameters, event.resultToken,
      event.eventLeftScope with
  | some ie, some rp, some _, some _ => handlerChecked w ie rp
  | _, _, _, _ =>
    Except.ok ({ HandlerResult.empty with result := some "error" }, CallTrace.init)

/-- Status attribute selected by a control key, with `""` default (total
companion of `overallStatus`; every reachable use has a valid key). -/
def statusOf (d : HostRecord) (k : String) : String := (overallStatus d k).getD ""

/-- Display name of a control key, with `""` default (total companion of
`controlNames`). -/
def nameOf (k : String) : String := (controlNames k).getD ""

/-- Pure scan-loop step; equal to `scanStep` whenever the control key is
valid. -/
def stepPure (control_key instance_id : String) (st : ScanState)
    (entry : String × HostRecord) : ScanState :=
  if hostMatches instance_id entry.2 then
    { is_protected := st.is_protected || classify control_key (statusOf entry.2 control_key)
      detailed_msg := nameOf control_key ++ " status: " ++ statusOf entry.2 control_key }
  else st

/-- Last record of the inventory (in iteration order) that matches the
instance id. -/
def lastMatch (instance_id : String) : List (String × HostRecord) → Option (String × HostRecord)
  | [] => none
  | p :: t =>
    match lastMatch instance_id t with
    | some q => some q
    | none => if hostMatches instance_id p.2 then some p else none

/-- Trace after the evaluator ran with the `Manager` object set. -/
def trSession (w : World) : CallTrace :=
  { credentialsResolved := true, sessionSet := true, signInSucceeded := w.signInOk
    inventoryFetched := true, signOutCalled := true, submission := none }

/-- Evaluator outcome (`is_protected`, `detailed_msg`) for valid control
keys, as a total function of the collaborator behaviour. -/
def evalOutcome (constructOk : Bool) (control_key instance_id : String)
    (hosts : List (String × HostRecord)) : ScanState :=
  if constructOk then
    hosts.foldl (stepPure control_key instance_id)
      { is_protected := false, detailed_msg := "" }
  else { is_protected := false, detailed_msg := "" }

/-- Verdict of the submitted evaluation, when the handler returned normally
and a submission was made. -/
def submittedVerdict (r : Except PyError (HandlerResult × CallTrace)) : Option String :=
  match r with
  | Except.ok (_, tr) => Option.map EvaluationRecord.complianceType tr.submission
  | Except.error _ => none

/-- An event that passes every check and is in scope: the four top-level keys
present, both credential keys present, a valid control `c`, a parseable TLS
flag, and an EC2 `configurationItem` carrying the non-empty resource id
`iid`. -/
def inScope (ev : Event) (rp : RuleParameters) (ci : ConfigurationItem)
    (iid rt c : String) : Prop :=
  ev.invokingEvent = some { configurationItem := some ci } ∧
  ev.ruleParameters = some rp ∧
  (∃ t, ev.resultToken = some t) ∧
  (∃ b, ev.eventLeftScope = some b) ∧
  (∃ u, rp.dsUsernameKey = some u) ∧
  (∃ pw, rp.dsPasswordKey = some pw) ∧
  rp.dsControl = some c ∧
  validControls.contains (pyLower c) = true ∧
  (∃ b, parseSsl rp.dsIgnoreSslValidation = Except.ok b) ∧
  ci.resourceType = some rt ∧
  pyLower rt = pyLower "AWS::EC2::Instance" ∧
  ci.resourceId = some iid ∧
  iid ≠ ""

/-- Example rule parameters: both credential keys, a hostname, control
`firewall`. -/
def rpOk : RuleParameters :=
  { dsUsernameKey := some "uKey", dsPasswordKey := some "pKey", dsTenant := none
    dsHostname := some "dsm.example.com", dsPort := none
    dsIgnoreSslValidation := none, dsControl := some "firewall" }

/-- Example EC2 configuration item. -/
def ciEC2 : ConfigurationItem :=
  { resourceType := some "AWS::EC2::Instance", resourceId := some "i-0abc" }

/-- Example fully valid, in-scope event. -/
def evOk : Event :=
  { invokingEvent := some { configurationItem := some ciEC2 }
    ruleParameters := some rpOk, resultToken := some "tok"
    eventLeftScope := some false }

/-- Host record matching `i-0abc` up to case and surrounding whitespace, with
firewall `On` and intrusion prevention only in detect mode. -/
def hostOn : HostRecord :=
  { cloud_object_instance_id := some "I-0abc "
    overall_anti_malware_status := "Off"
    overall_web_reputation_status := "Off"
    overall_firewall_status := "On"
    overall_intrusion_prevention_status := "On, Detect"
    overall_integrity_monitoring_status := "Off"
    overall_log_inspection_status := "Off" }

/-- Collaborator behaviour where everything succeeds and the inventory holds
the single matching record `hostOn`. -/
def wOk : World :=
  { managerConstructOk := true, signInOk := true, computers := [("1", hostOn)]
    putEvaluationsOk := true, putEvaluationsResponse := "resp" }

/-- Event with `dsUsernameKey` absent but `dsPasswordKey` present. -/
def evNoUser : Event :=
  { evOk with ruleParameters := some ({ rpOk with dsUsernameKey := none }) }

/-- Rule parameters with both credential keys absent but `dsTenant` and
`dsHostname` both present. -/
def rpNoCreds : RuleParameters :=
  { rpOk with dsUsernameKey := none, dsPasswordKey := none
              dsTenant := some "tenant", dsHostname := some "host" }

/-- Event carrying `rpNoCreds`. -/
def evNoCreds : Event := { evOk with ruleParameters := some rpNoCreds }

/-- Event requesting the `intrusion_prevention` control. -/
def evIP : Event :=
  { evOk with ruleParameters := some ({ rpOk with dsControl := some "intrusion_prevention" }) }

/-- Event requesting the `anti_malware` control. -/
def evAM : Event :=
  { evOk with ruleParameters := some ({ rpOk with dsControl := some "anti_malware" }) }

/-- The evaluation record built in the reporting `try` block. -/
def mkSubmission (rt iid : String) (isp : Bool) (dm : String) : EvaluationRecord :=
  { complianceResourceType := rt, complianceResourceId := iid
    complianceType := if isp then "COMPLIANT" else "NON_COMPLIANT"
    annot := if dm == "" then none else some dm }

/-- Trace extended with the evaluation passed to `put_evaluations`. -/
def withSubmission (tr : CallTrace) (e : EvaluationRecord) : CallTrace :=
  { tr with submission := some e }

/-- Handler result of a successful submission: `result: success` plus the raw
response, on top of the annotation-bearing base result. -/
def resSuccess (dm resp : String) : HandlerResult :=
  { mkResult0 dm with result := some "success", response := some resp }

/-- Handler result of a failed submission: `result: failure` on top of the
annotation-bearing base result. -/
def resFailure (dm : String) : HandlerResult :=
  { mkResult0 dm with result := some "failure" }

/-- Rule parameters with a `dsControl` value outside the valid set. -/
def rpBadControl : RuleParameters := { rpOk with dsControl := some "Firewalls" }

/-- Event carrying `rpBadControl`. -/
def evBadControl : Event := { evOk with ruleParameters := some rpBadControl }

/-- Configuration item for a non-EC2 resource. -/
def ciS3 : ConfigurationItem :=
  { resourceType := some "AWS::S3::Bucket", resourceId := some "bucket-1" }

/-- Event whose changed resource is an S3 bucket, not an EC2 instance. -/
def evS3 : Event := { evOk with invokingEvent := some { configurationItem := some ciS3 } }

/-- EC2 configuration item with no `resourceId` key. -/
def ciNoId : ConfigurationItem :=
  { resourceType := some "AWS::EC2::Instance", resourceId := none }

/-- Event whose configuration item has no resource id. -/
def evNoId : Event := { evOk with invokingEvent := some { configurationItem := some ciNoId } }

/-- Host record whose cloud instance id does not match `i-0abc`. -/
def hostOther : HostRecord := { hostOn with cloud_object_instance_id := some "i-zzz" }

/-- Collaborator behaviour whose inventory contains no record matching
`i-0abc`. -/
def wNoMatch : World := { wOk with computers := [("2", hostOther)] }

/-- For a valid control key the monadic scan step never raises and agrees
with the pure step function. -/
theorem scanStep_valid (ck iid : String) (hck : validControls.contains ck = true)
    (st : ScanState) (p : String × HostRecord) :
    scanStep ck iid st p = Except.ok (stepPure ck iid st p) := by
  have hmem : ck = "anti_malware" ∨ ck = "web_reputation" ∨ ck = "firewall" ∨
      ck = "intrusion_prevention" ∨ ck = "integrity_monitoring" ∨ ck = "log_inspection" := by
    have h2 : ck ∈ validControls := List.mem_of_elem_eq_true hck
    simpa [validControls] using h2
  rcases hmem with rfl | rfl | rfl | rfl | rfl | rfl <;>
    by_cases hm : hostMatches iid p.2 <;>
      simp [scanStep, stepPure, overallStatus, controlNames, statusOf, nameOf, hm]

/-- For a valid control key the whole scan loop never raises and equals a
left fold of the pure step function. -/
theorem scanHosts_valid (ck iid : String) (hck : validControls.contains ck = true)
    (hosts : List (String × HostRecord)) (st : ScanState) :
    scanHosts ck iid hosts st = Except.ok (hosts.foldl (stepPure ck iid) st) := by
  induction hosts generalizing st with
  | nil => simp [scanHosts]
  | cons p t ih => simp [scanHosts, scanStep_valid ck iid hck, List.foldl_cons, ih]

/-- The folded `is_protected` flag equals the initial flag or-ed with an
existence test over the inventory. -/
theorem foldl_stepPure_protected (ck iid : String)
    (hosts : List (String × HostRecord)) (st : ScanState) :
    (hosts.foldl (stepPure ck iid) st).is_protected =
      (st.is_protected ||
        hosts.any fun p => hostMatches iid p.2 && classify ck (statusOf p.2 ck)) := by
  induction hosts generalizing st with
  | nil => simp
  | cons p t ih =>
    by_cases hm : hostMatches iid p.2 <;>
      simp [stepPure, hm, ih, Bool.or_assoc]

/-- The folded `detailed_msg` is the message of the last matching record, or
the initial message when no record matches. -/
theorem foldl_stepPure_msg (ck iid : String)
    (hosts : List (String × HostRecord)) (st : ScanState) :
    (hosts.foldl (stepPure ck iid) st).detailed_msg =
      (match lastMatch iid hosts with
       | some p => nameOf ck ++ " status: " ++ statusOf p.2 ck
       | none => st.detailed_msg) := by
  induction hosts generalizing st with
  | nil => simp [lastMatch]
  | cons p t ih =>
    by_cases hm : hostMatches iid p.2 <;>
      rcases hlm : lastMatch iid t with _ | q <;>
        simp [lastMatch, stepPure, hm, ih, hlm]

/-- A scan over an inventory with no matching record leaves the state
unchanged. -/
theorem foldl_stepPure_nomatch (ck iid : String)
    (hosts : List (String × HostRecord)) (st : ScanState)
    (h : ∀ p ∈ hosts, hostMatches iid p.2 = false) :
    hosts.foldl (stepPure ck iid) st = st := by
  induction hosts generalizing st with
  | nil => simp
  | cons p t ih =>
    have hp := h p (by simp)
    simp only [List.foldl_cons, stepPure, hp, Bool.false_eq_true, if_false]
    exact ih st (fun q hq => h q (by simp [hq]))

/-- Master lemma: on any in-scope event the handler returns normally and its
result is the reporting phase applied to the evaluator outcome, with the
trace recording session, inventory fetch and sign-out exactly when the
`Manager` construction succeeded. -/
theorem handler_inScope (w : World) (ev : Event) (rp : RuleParameters)
    (ci : ConfigurationItem) (iid rt c : String)
    (h : inScope ev rp ci iid rt c) :
    aws_config_rule_handler w ev =
      Except.ok (reportPhase w { configurationItem := some ci } (some iid)
        (evalOutcome w.managerConstructOk (pyLower c) iid w.computers).is_protected
        (evalOutcome w.managerConstructOk (pyLower c) iid w.computers).detailed_msg
        (if w.managerConstructOk then trSession w else trCreds)) := by
  obtain ⟨hie, hrp, ⟨tok, htok⟩, ⟨els, hels⟩, ⟨u, hu⟩, ⟨pw, hpw⟩, hc, hvc,
    ⟨b, hssl⟩, hrt, hrtl, hrid, hiid⟩ := h
  rcases ev with ⟨ie0, rp0, tok0, els0⟩
  simp only at hie hrp htok hels
  subst hie hrp htok hels
  show handlerChecked w { configurationItem := some ci } rp = _
  rw [handlerChecked]
  simp only [hu, hpw, hc, Option.isNone_some, Bool.false_and, Bool.and_false, if_false,
    Bool.false_eq_true]
  simp only [hvc, Option.getD_some, Bool.not_true, Bool.or_false, if_false,
    Bool.false_eq_true]
  have hinst : extractInstanceId { configurationItem := some ci } = some iid := by
    simp [extractInstanceId, hrt, hrtl, hrid]
  rw [hinst]
  have htr : pyTruthy (some iid) = true := by simp [pyTruthy, hiid]
  rw [evalPhase]
  simp only [htr, if_true, hssl, hc]
  cases hmc : w.managerConstructOk with
  | false => simp [evalOutcome]
  | true =>
    simp only [if_true, Option.getD_some]
    rw [scanHosts_valid (pyLower c) iid hvc]
    simp [evalOutcome, trSession, trCreds, CallTrace.init]

/-- Reporting phase on an EC2 configuration item with a truthy instance id:
the submission is attempted and the result is `success` or `failure`
according to the collaborator. -/
theorem reportPhase_ec2 (w : World) (ci : ConfigurationItem) (iid rt : String)
    (hrt : ci.resourceType = some rt) (hrid : ci.resourceId = some iid)
    (hiid : iid ≠ "") (isp : Bool) (dm : String) (tr : CallTrace) :
    reportPhase w { configurationItem := some ci } (some iid) isp dm tr =
      (if w.putEvaluationsOk then
        ({ mkResult0 dm with result := some "success",
                             response := some w.putEvaluationsResponse },
         { tr with submission := some (mkSubmission rt iid isp dm) })
      else
        ({ mkResult0 dm with result := some "failure" },
         { tr with submission := some (mkSubmission rt iid isp dm) })) := by
  rw [reportPhase]
  simp only [pyTruthy, hiid, hrt, hrid]
  simp [hiid, mkSubmission]

/-- The evaluator outcome's protection flag, when a session was set, is an
existence test over the inventory. -/
theorem evalOutcome_protected (ck iid : String) (hosts : List (String × HostRecord)) :
    (evalOutcome true ck iid hosts).is_protected =
      hosts.any fun p => hostMatches iid p.2 && classify ck (statusOf p.2 ck) := by
  rw [evalOutcome]
  simp [foldl_stepPure_protected]

/-- The example event `evOk` is in scope with instance id `i-0abc` and the
`firewall` control. -/
theorem inScope_evOk : inScope evOk rpOk ciEC2 "i-0abc" "AWS::EC2::Instance" "firewall" :=
  ⟨rfl, rfl, ⟨"tok", rfl⟩, ⟨false, rfl⟩, ⟨"uKey", rfl⟩, ⟨"pKey", rfl⟩, rfl,
    by decide, ⟨false, rfl⟩, rfl, rfl, rfl, by decide⟩

/-- C1: the claim says an event whose `ruleParameters` lacks `dsUsernameKey`
or `dsPasswordKey` yields a `requirements_not_met` return value.  The code
disagrees: because the three absence tests are combined with `and`, an event
missing only `dsUsernameKey` (password key present), and likewise an event
missing both credential keys while carrying both `dsTenant` and
`dsHostname`, slip past the check and raise `KeyError` at the
`Credentials(...)` subscript instead of returning a mapping. -/
theorem C1_missing_credential_key_raises :
    aws_config_rule_handler wOk evNoUser = Except.error (PyError.keyError "dsUsernameKey") ∧
    aws_config_rule_handler wOk evNoCreds = Except.error (PyError.keyError "dsUsernameKey") :=
  ⟨rfl, rfl⟩

/-- C2 counterexample: on an in-scope event where `Manager(...)` succeeds but
`sign_in()` raises, the session object is set (`mgr` was assigned before the
failing call), the inventory fetch, host scan and sign-out all run, and a
matching protected host still yields a `COMPLIANT` submission — contradicting
the claim that the session stays unset, those steps are skipped and the
verdict is `NON_COMPLIANT`. -/
theorem C2_counterexample :
    aws_config_rule_handler { wOk with signInOk := false } evOk =
      Except.ok
        ({ result := some "success", requirements_not_met := none
           annot := some "Firewall status: On", response := some "resp" },
         { credentialsResolved := true, sessionSet := true, signInSucceeded := false
           inventoryFetched := true, signOutCalled := true
           submission := some ({ complianceResourceType := "AWS::EC2::Instance"
                                 complianceResourceId := "i-0abc"
                                 complianceType := "COMPLIANT"
                                 annot := some "Firewall status: On" }) }) := rfl

/-- C2 (amended): on an in-scope EC2 event, only a failure of the `Manager`
construction itself leaves the session unset and skips the inventory fetch,
host scan and sign-out, with protection false and a `NON_COMPLIANT`
submission still attempted.  When construction succeeds and `sign_in()`
raises, the exception is merely logged: the session object is set, the
inventory fetch, host scan and sign-out all still run, and the submitted
verdict follows the scan (COMPLIANT iff some matching record's status
satisfies the control's rule). -/
theorem C2_amended_signin (w : World) (ev : Event) (rp : RuleParameters)
    (ci : ConfigurationItem) (iid rt c : String)
    (h : inScope ev rp ci iid rt c) :
    (w.managerConstructOk = false →
      ∃ res tr, aws_config_rule_handler w ev = Except.ok (res, tr) ∧
        tr.sessionSet = false ∧ tr.inventoryFetched = false ∧
        tr.signOutCalled = false ∧
        tr.submission = some ⟨rt, iid, "NON_COMPLIANT", none⟩) ∧
    (w.managerConstructOk = true → w.signInOk = false →
      ∃ res tr, aws_config_rule_handler w ev = Except.ok (res, tr) ∧
        tr.sessionSet = true ∧ tr.signInSucceeded = false ∧
        tr.inventoryFetched = true ∧ tr.signOutCalled = true ∧
        Option.map EvaluationRecord.complianceType tr.submission =
          some (if w.computers.any (fun p => hostMatches iid p.2 &&
                  classify (pyLower c) (statusOf p.2 (pyLower c)))
                then "COMPLIANT" else "NON_COMPLIANT")) := by
  have hmain := handler_inScope w ev rp ci iid rt c h
  obtain ⟨-, -, -, -, -, -, -, -, -, hrt, -, hrid, hiid⟩ := h
  rw [reportPhase_ec2 w ci iid rt hrt hrid hiid] at hmain
  constructor
  · intro hmc
    rw [hmc] at hmain
    simp only [evalOutcome, Bool.false_eq_true, if_false] at hmain
    cases hput : w.putEvaluationsOk
    · rw [hput] at hmain
      simp only [Bool.false_eq_true, if_false] at hmain
      exact ⟨_, _, hmain, rfl, rfl, rfl, by simp [mkSubmission]⟩
    · rw [hput] at hmain
      simp only [if_true] at hmain
      exact ⟨_, _, hmain, rfl, rfl, rfl, by simp [mkSubmission]⟩
  · intro hmc hsi
    rw [hmc] at hmain
    simp only [if_true] at hmain
    cases hput : w.putEvaluationsOk
    · rw [hput] at hmain
      simp only [Bool.false_eq_true, if_false] at hmain
      refine ⟨_, _, hmain, rfl, by simp [trSession, hsi], rfl, rfl, ?_⟩
      simp only [Option.map_some', mkSubmission]
      rw [evalOutcome_protected]
    · rw [hput] at hmain
      simp only [if_true] at hmain
      refine ⟨_, _, hmain, rfl, by simp [trSession, hsi], rfl, rfl, ?_⟩
      simp only [Option.map_some', mkSubmission]
      rw [evalOutcome_protected]

/-- C2 (amended) witness: concrete instantiation at `evOk` with sign-in
failing: the session is set, all later steps run, and the matching protected
record yields a `COMPLIANT` verdict. -/
theorem C2_amended_signin_witness :
    ∃ res tr,
      aws_config_rule_handler { wOk with signInOk := false } evOk = Except.ok (res, tr) ∧
      tr.sessionSet = true ∧ tr.signInSucceeded = false ∧
      tr.inventoryFetched = true ∧ tr.signOutCalled = true ∧
      Option.map EvaluationRecord.complianceType tr.submission =
        some (if ({ wOk with signInOk := false } : World).computers.any
                (fun p => hostMatches "i-0abc" p.2 &&
                  classify (pyLower "firewall") (statusOf p.2 (pyLower "firewall")))
              then "COMPLIANT" else "NON_COMPLIANT") :=
  (C2_amended_signin { wOk with signInOk := false } evOk rpOk ciEC2
    "i-0abc" "AWS::EC2::Instance" "firewall" inScope_evOk).2 rfl rfl

/-- C3: the per-control classification of a status string is exactly the
case-insensitive substring test of the claim (`On, Real Time` or
`" On, Security Update In Progress, Real Time"` for anti-malware and
integrity monitoring, `On, Prevent` for intrusion prevention, `On` for the
rest), and in particular firewall `On` is submitted as COMPLIANT while
intrusion prevention `On, Detect` and anti-malware `Off` are submitted as
NON_COMPLIANT. -/
theorem C3_classification_rules :
    (∀ status : String,
      classify "anti_malware" status =
        (pyIn "on, real time" (pyLower status) ||
         pyIn " on, security update in progress, real time" (pyLower status)) ∧
      classify "integrity_monitoring" status =
        (pyIn "on, real time" (pyLower status) ||
         pyIn " on, security update in progress, real time" (pyLower status)) ∧
      classify "intrusion_prevention" status = pyIn "on, prevent" (pyLower status) ∧
      classify "web_reputation" status = pyIn "on" (pyLower status) ∧
      classify "firewall" status = pyIn "on" (pyLower status) ∧
      classify "log_inspection" status = pyIn "on" (pyLower status)) ∧
    submittedVerdict (aws_config_rule_handler wOk evOk) = some "COMPLIANT" ∧
    submittedVerdict (aws_config_rule_handler wOk evIP) = some "NON_COMPLIANT" ∧
    submittedVerdict (aws_config_rule_handler wOk evAM) = some "NON_COMPLIANT" :=
  ⟨fun _ => ⟨rfl, rfl, rfl, rfl, rfl, rfl⟩, by decide, by decide, by decide⟩

/-- C4: an event missing any of the four required top-level keys makes the
handler return exactly the mapping with `result: error`, with no collaborator
call recorded. -/
theorem C4_missing_toplevel_key (w : World) (ev : Event)
    (h : ev.invokingEvent = none ∨ ev.ruleParameters = none ∨
         ev.resultToken = none ∨ ev.eventLeftScope = none) :
    aws_config_rule_handler w ev =
      Except.ok ({ HandlerResult.empty with result := some "error" }, CallTrace.init) := by
  rcases ev with ⟨ie, rp, tok, els⟩
  rcases ie with _ | ie <;> rcases rp with _ | rp <;> rcases tok with _ | tok <;>
    rcases els with _ | els <;> simp_all [aws_config_rule_handler]

/-- C4 witness: the concrete event `evOk` stripped of its `resultToken`. -/
theorem C4_missing_toplevel_key_witness :
    aws_config_rule_handler wOk { evOk with resultToken := none } =
      Except.ok ({ HandlerResult.empty with result := some "error" }, CallTrace.init) :=
  C4_missing_toplevel_key wOk { evOk with resultToken := none }
    (Or.inr (Or.inr (Or.inl rfl)))

/-- C5: an event with all four top-level keys and both credential keys whose
`dsControl` is absent or (lowercased) outside the six valid control names
makes the handler return the `requirements_not_met` mapping, with only the
credential resolution recorded. -/
theorem C5_invalid_control (w : World) (ev : Event) (ie : InvokingEvent)
    (rp : RuleParameters)
    (hie : ev.invokingEvent = some ie) (hrp : ev.ruleParameters = some rp)
    (htok : ∃ t, ev.resultToken = some t) (hels : ∃ b, ev.eventLeftScope = some b)
    (hu : ∃ u, rp.dsUsernameKey = some u) (hpw : ∃ p, rp.dsPasswordKey = some p)
    (hc : rp.dsControl = none ∨
          ∃ c, rp.dsControl = some c ∧ validControls.contains (pyLower c) = false) :
    aws_config_rule_handler w ev =
      Except.ok ({ HandlerResult.empty with requirements_not_met := some reqMsgControl },
        trCreds) := by
  obtain ⟨tok, htok⟩ := htok
  obtain ⟨els, hels⟩ := hels
  obtain ⟨u, hu⟩ := hu
  obtain ⟨pw, hpw⟩ := hpw
  rcases ev with ⟨ie0, rp0, tok0, els0⟩
  simp only at hie hrp htok hels
  subst hie hrp htok hels
  show handlerChecked w ie rp = _
  rw [handlerChecked]
  simp only [hu, hpw, Option.isNone_some, Bool.false_and, if_false, Bool.false_eq_true]
  rcases hc with hc | ⟨c, hc, hvc⟩
  · simp [hc]
  · rw [hc]
    simp only [Option.isNone_some, Option.getD_some, Bool.false_or]
    rw [hvc]
    simp

/-- C5 witness: the concrete event carrying `dsControl = "Firewalls"`. -/
theorem C5_invalid_control_witness :
    aws_config_rule_handler wOk evBadControl =
      Except.ok ({ HandlerResult.empty with requirements_not_met := some reqMsgControl },
        trCreds) :=
  C5_invalid_control wOk evBadControl { configurationItem := some ciEC2 } rpBadControl
    rfl rfl ⟨"tok", rfl⟩ ⟨false, rfl⟩ ⟨"uKey", rfl⟩ ⟨"pKey", rfl⟩
    (Or.inr ⟨"Firewalls", rfl, by decide⟩)

/-- C6: a fully validated event whose configuration item has a missing or
non-EC2 (case-insensitive) resource type, or no resource id, produces no
submission and a returned mapping with no `result` key (in fact the empty
mapping), after credential resolution only. -/
theorem C6_not_ec2 (w : World) (ev : Event) (rp : RuleParameters)
    (ci : ConfigurationItem)
    (hie : ev.invokingEvent = some { configurationItem := some ci })
    (hrp : ev.ruleParameters = some rp)
    (htok : ∃ t, ev.resultToken = some t) (hels : ∃ b, ev.eventLeftScope = some b)
    (hu : ∃ u, rp.dsUsernameKey = some u) (hpw : ∃ p, rp.dsPasswordKey = some p)
    (hc : ∃ c, rp.dsControl = some c ∧ validControls.contains (pyLower c) = true)
    (hscope : ci.resourceType = none ∨
      (∃ rt, ci.resourceType = some rt ∧
        (pyLower rt == pyLower "AWS::EC2::Instance") = false) ∨
      ci.resourceId = none) :
    aws_config_rule_handler w ev = Except.ok (HandlerResult.empty, trCreds) := by
  obtain ⟨tok, htok⟩ := htok
  obtain ⟨els, hels⟩ := hels
  obtain ⟨u, hu⟩ := hu
  obtain ⟨pw, hpw⟩ := hpw
  obtain ⟨c, hc, hvc⟩ := hc
  rcases ev with ⟨ie0, rp0, tok0, els0⟩
  simp only at hie hrp htok hels
  subst hie hrp htok hels
  show handlerChecked w { configurationItem := some ci } rp = _
  rw [handlerChecked]
  simp only [hu, hpw, Option.isNone_some, Bool.false_and, if_false, Bool.false_eq_true]
  rw [hc]
  simp only [Option.isNone_some, Option.getD_some, Bool.false_or]
  rw [hvc]
  simp only [Bool.not_true, if_false, Bool.false_eq_true]
  have hinst : extractInstanceId { configurationItem := some ci } = none := by
    rcases hscope with hn | ⟨rt, hrt, hne⟩ | hn
    · simp [extractInstanceId, hn]
    · simp [extractInstanceId, hrt, hne]
    · rcases hrt : ci.resourceType with _ | rt
      · simp [extractInstanceId, hrt]
      · simp [extractInstanceId, hrt, hn]
  rw [hinst]
  rw [evalPhase]
  simp [pyTruthy, reportPhase, mkResult0]

/-- C6 witness: the concrete S3-bucket event. -/
theorem C6_not_ec2_witness :
    aws_config_rule_handler wOk evS3 = Except.ok (HandlerResult.empty, trCreds) :=
  C6_not_ec2 wOk evS3 rpOk ciS3 rfl rfl ⟨"tok", rfl⟩ ⟨false, rfl⟩
    ⟨"uKey", rfl⟩ ⟨"pKey", rfl⟩ ⟨"firewall", rfl, by decide⟩
    (Or.inr (Or.inl ⟨"AWS::S3::Bucket", rfl, by decide⟩))

/-- C7: on an in-scope event the reporting step never raises: a failing
`put_evaluations` is caught and yields `result: failure`, a successful one
yields `result: success` with the collaborator's raw response under
`response`, and in every returned mapping the annotation is present exactly
when the scan produced a detailed message. -/
theorem C7_reporting (w : World) (ev : Event) (rp : RuleParameters)
    (ci : ConfigurationItem) (iid rt c : String)
    (h : inScope ev rp ci iid rt c) (st : ScanState)
    (hst : evalOutcome w.managerConstructOk (pyLower c) iid w.computers = st) :
    (w.putEvaluationsOk = false →
      aws_config_rule_handler w ev =
        Except.ok (resFailure st.detailed_msg,
          withSubmission (if w.managerConstructOk then trSession w else trCreds)
            (mkSubmission rt iid st.is_protected st.detailed_msg))) ∧
    (w.putEvaluationsOk = true →
      aws_config_rule_handler w ev =
        Except.ok (resSuccess st.detailed_msg w.putEvaluationsResponse,
          withSubmission (if w.managerConstructOk then trSession w else trCreds)
            (mkSubmission rt iid st.is_protected st.detailed_msg))) ∧
    (∀ res tr, aws_config_rule_handler w ev = Except.ok (res, tr) →
      (res.annot.isSome ↔ ¬ st.detailed_msg = "")) := by
  have hmain := handler_inScope w ev rp ci iid rt c h
  obtain ⟨-, -, -, -, -, -, -, -, -, hrt, -, hrid, hiid⟩ := h
  rw [reportPhase_ec2 w ci iid rt hrt hrid hiid] at hmain
  rw [hst] at hmain
  refine ⟨?_, ?_, ?_⟩
  · intro hput
    rw [hput] at hmain
    simp only [Bool.false_eq_true, if_false] at hmain
    rw [hmain]
    simp [withSubmission, resFailure]
  · intro hput
    rw [hput] at hmain
    simp only [if_true] at hmain
    rw [hmain]
    simp [withSubmission, resSuccess]
  · intro res tr heq
    have hok := heq.symm.trans hmain
    cases hput : w.putEvaluationsOk
    · rw [hput] at hok
      simp only [Bool.false_eq_true, if_false, Except.ok.injEq, Prod.mk.injEq] at hok
      obtain ⟨h1, -⟩ := hok
      subst h1
      by_cases hdm : st.detailed_msg = "" <;> simp [mkResult0, hdm, HandlerResult.empty]
    · rw [hput] at hok
      simp only [if_true, Except.ok.injEq, Prod.mk.injEq] at hok
      obtain ⟨h1, -⟩ := hok
      subst h1
      by_cases hdm : st.detailed_msg = "" <;> simp [mkResult0, hdm, HandlerResult.empty]

/-- C7 witness: concrete run in which `put_evaluations` raises; the handler
still returns a mapping, with `result: failure`. -/
theorem C7_reporting_witness :
    aws_config_rule_handler { wOk with putEvaluationsOk := false } evOk =
      Except.ok (resFailure "Firewall status: On",
        withSubmission (trSession { wOk with putEvaluationsOk := false })
          (mkSubmission "AWS::EC2::Instance" "i-0abc" true "Firewall status: On")) :=
  (C7_reporting { wOk with putEvaluationsOk := false } evOk rpOk ciEC2
    "i-0abc" "AWS::EC2::Instance" "firewall" inScope_evOk
    ⟨true, "Firewall status: On"⟩ (by decide)).1 rfl

/-- C8: on an in-scope event with an established session whose inventory has
no record matching the instance id, the returned mapping carries no
annotation and a `NON_COMPLIANT` evaluation for that resource id is still
passed to `put_evaluations`. -/
theorem C8_no_matching_host (w : World) (ev : Event) (rp : RuleParameters)
    (ci : ConfigurationItem) (iid rt c : String)
    (h : inScope ev rp ci iid rt c)
    (hmc : w.managerConstructOk = true) (_hsi : w.signInOk = true)
    (hnone : ∀ p ∈ w.computers, hostMatches iid p.2 = false) :
    ∃ res tr, aws_config_rule_handler w ev = Except.ok (res, tr) ∧
      res.annot = none ∧
      tr.submission = some ⟨rt, iid, "NON_COMPLIANT", none⟩ := by
  have hmain := handler_inScope w ev rp ci iid rt c h
  obtain ⟨-, -, -, -, -, -, -, -, -, hrt, -, hrid, hiid⟩ := h
  rw [reportPhase_ec2 w ci iid rt hrt hrid hiid] at hmain
  rw [hmc] at hmain
  have hout : evalOutcome true (pyLower c) iid w.computers =
      { is_protected := false, detailed_msg := "" } := by
    rw [evalOutcome]
    simp only [if_true]
    exact foldl_stepPure_nomatch (pyLower c) iid w.computers _ hnone
  rw [hout] at hmain
  simp only [if_true] at hmain
  cases hput : w.putEvaluationsOk
  · rw [hput] at hmain
    simp only [Bool.false_eq_true, if_false] at hmain
    exact ⟨_, _, hmain, by simp [mkResult0, HandlerResult.empty], by simp [mkSubmission]⟩
  · rw [hput] at hmain
    simp only [if_true] at hmain
    exact ⟨_, _, hmain, by simp [mkResult0, HandlerResult.empty], by simp [mkSubmission]⟩

/-- C8 witness: concrete inventory holding only a non-matching record. -/
theorem C8_no_matching_host_witness :
    ∃ res tr, aws_config_rule_handler wNoMatch evOk = Except.ok (res, tr) ∧
      res.annot = none ∧
      tr.submission = some ⟨"AWS::EC2::Instance", "i-0abc", "NON_COMPLIANT", none⟩ :=
  C8_no_matching_host wNoMatch evOk rpOk ciEC2 "i-0abc" "AWS::EC2::Instance" "firewall"
    inScope_evOk rfl rfl (by decide)

/-- C9: for a valid control key the scan is monotone in the protection flag
(once set it is never reset), the final flag from a fresh scan is exactly
the existence of a matching record whose status satisfies the rule, the
final detailed message is the one of the last matching record visited, and
on an in-scope event with a session the submitted verdict is COMPLIANT
exactly when such a record exists. -/
theorem C9_scan_semantics (ck iid : String) (hosts : List (String × HostRecord))
    (hck : validControls.contains ck = true) :
    (∀ st0 st, scanHosts ck iid hosts st0 = Except.ok st →
       st0.is_protected = true → st.is_protected = true) ∧
    (∀ st, scanHosts ck iid hosts { is_protected := false, detailed_msg := "" } =
        Except.ok st →
       st.is_protected =
         (hosts.any fun p => hostMatches iid p.2 && classify ck (statusOf p.2 ck))) ∧
    (∀ st0 st, scanHosts ck iid hosts st0 = Except.ok st →
       st.detailed_msg = (match lastMatch iid hosts with
         | some p => nameOf ck ++ " status: " ++ statusOf p.2 ck
         | none => st0.detailed_msg)) ∧
    (∀ w ev rp ci rt c, inScope ev rp ci iid rt c → pyLower c = ck →
       w.managerConstructOk = true → w.computers = hosts →
       ∃ res tr, aws_config_rule_handler w ev = Except.ok (res, tr) ∧
         Option.map EvaluationRecord.complianceType tr.submission =
           some (if hosts.any (fun p => hostMatches iid p.2 && classify ck (statusOf p.2 ck))
                 then "COMPLIANT" else "NON_COMPLIANT")) := by
  refine ⟨?_, ?_, ?_, ?_⟩
  · intro st0 st hscan hp
    rw [scanHosts_valid ck iid hck] at hscan
    simp only [Except.ok.injEq] at hscan
    subst hscan
    rw [foldl_stepPure_protected]
    simp [hp]
  · intro st hscan
    rw [scanHosts_valid ck iid hck] at hscan
    simp only [Except.ok.injEq] at hscan
    subst hscan
    rw [foldl_stepPure_protected]
    simp
  · intro st0 st hscan
    rw [scanHosts_valid ck iid hck] at hscan
    simp only [Except.ok.injEq] at hscan
    subst hscan
    exact foldl_stepPure_msg ck iid hosts st0
  · intro w ev rp ci rt c h hcl hmc hcomp
    have hmain := handler_inScope w ev rp ci iid rt c h
    obtain ⟨-, -, -, -, -, -, -, -, -, hrt, -, hrid, hiid⟩ := h
    rw [reportPhase_ec2 w ci iid rt hrt hrid hiid] at hmain
    rw [hmc, hcl, hcomp] at hmain
    cases hput : w.putEvaluationsOk
    · rw [hput] at hmain
      simp only [Bool.false_eq_true, if_false, if_true] at hmain
      refine ⟨_, _, hmain, ?_⟩
      simp only [Option.map_some', mkSubmission]
      rw [evalOutcome_protected]
    · rw [hput] at hmain
      simp only [if_true] at hmain
      refine ⟨_, _, hmain, ?_⟩
      simp only [Option.map_some', mkSubmission]
      rw [evalOutcome_protected]

/-- C9 witness: a concrete fresh scan over a single matching protected
record ends protected, matching the existence test. -/
theorem C9_scan_semantics_witness :
    scanHosts "firewall" "i-0abc" [("1", hostOn)]
      { is_protected := false, detailed_msg := "" } =
        Except.ok { is_protected := true, detailed_msg := "Firewall status: On" } ∧
    ({ is_protected := true, detailed_msg := "Firewall status: On" } : ScanState).is_protected =
      ([("1", hostOn)].any fun p =>
        hostMatches "i-0abc" p.2 && classify "firewall" (statusOf p.2 "firewall")) :=
  ⟨rfl,
    (C9_scan_semantics "firewall" "i-0abc" [("1", hostOn)] (by decide)).2.1
      { is_protected := true, detailed_msg := "Firewall status: On" } rfl⟩

/-- C10: a fully validated event from which no truthy instance id is
extracted returns exactly the empty mapping (in particular no annotation
key), with no submission. -/
theorem C10_no_instance_id (w : World) (ev : Event) (ie : InvokingEvent)
    (rp : RuleParameters)
    (hie : ev.invokingEvent = some ie) (hrp : ev.ruleParameters = some rp)
    (htok : ∃ t, ev.resultToken = some t) (hels : ∃ b, ev.eventLeftScope = some b)
    (hu : ∃ u, rp.dsUsernameKey = some u) (hpw : ∃ p, rp.dsPasswordKey = some p)
    (hc : ∃ c, rp.dsControl = some c ∧ validControls.contains (pyLower c) = true)
    (hinst : pyTruthy (extractInstanceId ie) = false) :
    aws_config_rule_handler w ev = Except.ok (HandlerResult.empty, trCreds) := by
  obtain ⟨tok, htok⟩ := htok
  obtain ⟨els, hels⟩ := hels
  obtain ⟨u, hu⟩ := hu
  obtain ⟨pw, hpw⟩ := hpw
  obtain ⟨c, hc, hvc⟩ := hc
  rcases ev with ⟨ie0, rp0, tok0, els0⟩
  simp only at hie hrp htok hels
  subst hie hrp htok hels
  show handlerChecked w ie rp = _
  rw [handlerChecked]
  simp only [hu, hpw, Option.isNone_some, Bool.false_and, if_false, Bool.false_eq_true]
  rw [hc]
  simp only [Option.isNone_some, Option.getD_some, Bool.false_or]
  rw [hvc]
  simp only [Bool.not_true, if_false, Bool.false_eq_true]
  rw [evalPhase]
  simp only [hinst, if_false, Bool.false_eq_true]
  rw [reportPhase]
  simp [hinst, mkResult0]

/-- C10 witness: the concrete EC2 event whose configuration item has no
resource id. -/
theorem C10_no_instance_id_witness :
    aws_config_rule_handler wOk evNoId = Except.ok (HandlerResult.empty, trCreds) :=
  C10_no_instance_id wOk evNoId { configurationItem := some ciNoId } rpOk
    rfl rfl ⟨"tok", rfl⟩ ⟨false, rfl⟩ ⟨"uKey", rfl⟩ ⟨"pKey", rfl⟩
    ⟨"firewall", rfl, by decide⟩ (by decide)
